import Mathlib

/-!
Verification development for the LiveTraffic replay sender
(`Resources/SendTraffic.py`, with the legacy variant
`Data/RealTraffic/SendTraffic.py`).

Lines of text are modelled as `List Char`.  Python floats are idealised as
rationals (`Rat`); the arithmetic performed by the scripts on timestamps is
exact on the magnitudes involved, so no rounding behaviour is modelled.
Mutable globals (`_tsDiff`, `args.bufPeriod`, `_sendLn`, the aircraft
filter `_ac`) are threaded explicitly through a state record, and the
wall-clock reading `int(time.time())` of each call is an explicit input.
A Python exception (for example `int()` or `float()` on unparseable text)
is modelled by returning `none`.
-/

abbrev Str := List Char

/-- Characters removed by Python `str.strip()` at both ends of a line. -/
def isSpaceChar (c : Char) : Bool :=
  c == ' ' || c == '\t' || c == '\n' || c == '\r' ||
    c == Char.ofNat 11 || c == Char.ofNat 12

/-- Python `str.strip()`: remove whitespace at both ends. -/
def pyStrip (s : Str) : Str :=
  ((s.dropWhile isSpaceChar).reverse.dropWhile isSpaceChar).reverse

/-- Python `ln.split(',')`. -/
def splitFields (s : Str) : List Str :=
  s.splitOn ','

/-- Python `','.join(fields)`. -/
def joinFields (fs : List Str) : Str :=
  [','].intercalate fs

/-- Decimal digit test and value. -/
def digitsOk (s : Str) : Bool :=
  !s.isEmpty && s.all Char.isDigit

/-- Value of a string of decimal digits. -/
def digitsVal (s : Str) : Nat :=
  s.foldl (fun a c => a * 10 + (c.toNat - 48)) 0

/-- Python `int(s)` in base 10: optional surrounding whitespace, optional
sign, then decimal digits; anything else raises, modelled as `none`. -/
def pyInt (s : Str) : Option Int :=
  match pyStrip s with
  | '+' :: rest => if digitsOk rest then some ((digitsVal rest : Int)) else none
  | '-' :: rest => if digitsOk rest then some (-(digitsVal rest : Int)) else none
  | t => if digitsOk t then some ((digitsVal t : Int)) else none

/-- Unsigned part of Python `float(s)`: digits with an optional single
decimal point, at least one digit present overall. -/
def pyFloatCore (t : Str) : Option Rat :=
  match t.splitOn '.' with
  | [ip] => if digitsOk ip then some ((digitsVal ip : Int) : Rat) else none
  | [ip, fp] =>
      if (digitsOk ip || ip.isEmpty) && (digitsOk fp || fp.isEmpty) &&
          !(ip.isEmpty && fp.isEmpty) then
        some (mkRat ((digitsVal ip * 10 ^ fp.length + digitsVal fp : Nat) : Int)
          (10 ^ fp.length))
      else none
  | _ => none

/-- Python `float(s)` restricted to plain decimal notation (the format of
the timestamps in the CSV files); a failed parse raises, modelled `none`. -/
def pyFloat (s : Str) : Option Rat :=
  match pyStrip s with
  | '+' :: rest => pyFloatCore rest
  | '-' :: rest => (pyFloatCore rest).map Neg.neg
  | t => pyFloatCore t

/-- The character of a decimal digit. -/
def digitChar (d : Nat) : Char :=
  Char.ofNat (48 + d % 10)

/-- Decimal digits of a natural number, with explicit fuel. -/
def natStrAux : Nat → Nat → Str
  | 0, _ => []
  | fuel + 1, n =>
      if n < 10 then [digitChar n]
      else natStrAux fuel (n / 10) ++ [digitChar (n % 10)]

/-- Decimal digits of a natural number. -/
def natStr (n : Nat) : Str :=
  natStrAux (n + 1) n

/-- Digits left-padded with zeros to width `k`. -/
def natStrPad (k n : Nat) : Str :=
  List.replicate (k - (natStr n).length) '0' ++ natStr n

/-- Smallest exponent `k` with `d ∣ 10 ^ k`, when one exists below `d + 1`. -/
def tenExp (d : Nat) : Option Nat :=
  (List.range (d + 1)).find? (fun k => 10 ^ k % d == 0)

/-- Sign part of the rendering of a rational. -/
def ratSign (q : Rat) : Str :=
  if q < 0 then ['-'] else []

/-- Rendering of a rational back to text, as Python `str()` renders the
float values arising here: sign, integer digits, a decimal point and the
fraction digits.  A denominator not clearing against a power of ten (never
produced by the scripts) falls back to fraction notation. -/
def ratToStr (q : Rat) : Str :=
  match tenExp q.den with
  | some 0 => ratSign q ++ natStr q.num.natAbs ++ ['.', '0']
  | some k => ratSign q ++ natStr (q.num.natAbs / q.den) ++ ['.'] ++
      natStrPad k (q.num.natAbs % q.den * 10 ^ k / q.den)
  | none => ratSign q ++ natStr q.num.natAbs ++ ['/'] ++ natStr q.den

/-- Rendering of an integer, as Python `str()` on an int. -/
def intStr (i : Int) : Str :=
  if i < 0 then '-' :: natStr i.natAbs else natStr i.natAbs

/-- Mutable program state of one replay: the pacing offset `_tsDiff`
(`0` is the unset sentinel, as in the Python falsiness test), the
buffer period and historic offset (both mutable via `args`), the
aircraft filter `_ac`, the `_sendLn` flag and the loop flag. -/
structure St where
  tsDiff : Rat
  bufPeriod : Int
  historic : Int
  ac : List Int
  sendLn : Bool
  loop : Bool
deriving DecidableEq

/-- Result of one `compWaitTS` call: the text written back into the
field, its numeric value, the seconds slept, and the updated state. -/
structure CWOut where
  out : Str
  val : Rat
  wait : Rat
  st : St
deriving DecidableEq

/-- Model of `compWaitTS` (Resources/SendTraffic.py, lines 77-102).
`now` is the value of `int(time.time())` read at the head of the call;
a `float()` failure on the field propagates as `none`. -/
def compWaitTS (st : St) (now : Int) (ts_s : Str) : Option CWOut :=
  match pyFloat ts_s with
  | none => none
  | some ts =>
    let d := if st.tsDiff = 0 then (now : Rat) - ts - (st.bufPeriod : Rat) else st.tsDiff
    let ts1 := ts + d
    let wait := if ts1 > (now : Rat) then ts1 - (now : Rat) else 0
    let ret := ts1 - (st.historic : Rat)
    some { out := ratToStr ret, val := ret, wait := wait, st := { st with tsDiff := d } }

/-- Result of one `sendTrafficData` call: datagrams sent to the traffic
port, whether the malformed-record diagnostic was printed, the Python
return value, the field list left in memory, the sleep performed, and
the updated state. -/
structure TDOut where
  sent : List Str
  diag : Bool
  ret : Nat
  fieldsAfter : List Str
  wait : Rat
  st : St
deriving DecidableEq

/-- Timestamp rewrite and send of a record that passed the filter
(Resources/SendTraffic.py, lines 118-126). -/
def paceAndSend (st : St) (now : Int) (fields : List Str) (doSend : Bool) :
    Option TDOut :=
  match compWaitTS st now (fields.getD 14 []) with
  | none => none
  | some o =>
    some { sent := if doSend then [joinFields (fields.set 14 o.out)] else [],
           diag := false,
           ret := 1,
           fieldsAfter := fields.set 14 o.out,
           wait := o.wait,
           st := o.st }

/-- The filter test `not _ac or int(fields[1]) in _ac` with Python
short-circuit evaluation, then pacing (Resources/SendTraffic.py,
lines 116-127). -/
def filterAndPace (st : St) (now : Int) (fields : List Str) (doSend : Bool) :
    Option TDOut :=
  if st.ac.isEmpty then paceAndSend st now fields doSend
  else
    match pyInt (fields.getD 1 []) with
    | none => none
    | some i =>
      if i ∈ st.ac then paceAndSend st now fields doSend
      else some { sent := [], diag := false, ret := 1, fieldsAfter := fields,
                  wait := 0, st := st }

/-- Model of `sendTrafficData` (Resources/SendTraffic.py, lines 105-127). -/
def sendTrafficData (st : St) (now : Int) (ln : Str) (doSend : Bool) :
    Option TDOut :=
  if (splitFields ln).length < 15 then
    some { sent := [], diag := true, ret := 0, fieldsAfter := splitFields ln,
           wait := 0, st := st }
  else filterAndPace st now (splitFields ln) doSend

/-- Model of `sendWeatherData` (Resources/SendTraffic.py, lines 130-134):
the line is sent verbatim as one datagram to the weather destination. -/
def sendWeatherData (ln : Str) : List Str :=
  [ln]

/-- The tag test of the main loop (Resources/SendTraffic.py, line 218). -/
def isTrafficLine (l : Str) : Bool :=
  "AITFC".toList.isPrefixOf l || "RTTFC".toList.isPrefixOf l

/-- Observable effect of one iteration of the inner for loop. -/
structure StepOut where
  traffic : List Str
  weather : List Str
  wait : Rat
  st : St
deriving DecidableEq

/-- One iteration of the inner for loop (Resources/SendTraffic.py,
lines 209-222): strip the raw line, classify it by tag, dispatch, and
set `_sendLn = 1` after a traffic line. -/
def processLine (st : St) (now : Int) (raw : Str) : Option StepOut :=
  if isTrafficLine (pyStrip raw) then
    match sendTrafficData st now (pyStrip raw) st.sendLn with
    | none => none
    | some o => some { traffic := o.sent, weather := [], wait := o.wait,
                       st := { o.st with sendLn := true } }
  else
    some { traffic := [], weather := sendWeatherData (pyStrip raw), wait := 0,
           st := st }

/-- One pass of the inner for loop over the input lines, each line paired
with the wall-clock reading its processing observes.  Collects the
datagrams sent to the traffic and weather ports. -/
def runPass (st : St) (ls : List (Int × Str)) :
    Option (List Str × List Str × St) :=
  match ls with
  | [] => some ([], [], st)
  | (now, raw) :: rest =>
    (processLine st now raw).bind (fun o =>
      (runPass o.st rest).map
        (fun r => (o.traffic ++ r.1, o.weather ++ r.2.1, r.2.2)))

/-- Top of the outer while loop: `_tsDiff = 0` (line 207). -/
def startPass (st : St) : St :=
  { st with tsDiff := 0 }

/-- End-of-file seam when looping (lines 226-228): `_sendLn = 0` and
`args.bufPeriod = 0`; the `seek(0)` rewind is modelled by the next pass
running over the same line list from its start. -/
def loopSeam (st : St) : St :=
  { st with sendLn := false, bufPeriod := 0 }

/-- The outer while loop (lines 204-228), bounded by fuel, collecting the
(traffic, weather) outputs of each pass. -/
def mainLoop : Nat → St → List (Int × Str) →
    Option (List (List Str × List Str) × St)
  | 0, st, _ => some ([], st)
  | fuel + 1, st, file =>
    (runPass (startPass st) file).bind (fun r =>
      if r.2.2.loop then
        (mainLoop fuel (loopSeam r.2.2) file).map
          (fun q => ((r.1, r.2.1) :: q.1, q.2))
      else some ([(r.1, r.2.1)], r.2.2))

/-- The shared ownship position (Resources/SendTraffic.py, class
position).  The NaN initial value of each field is modelled as `none`. -/
structure position where
  lat : Option Rat
  lon : Option Rat
  alt_m : Option Rat
  track : Option Rat
  gndSpd_m_per_s : Option Rat
deriving DecidableEq

/-- Model of `position.updateFrom` (lines 63-71).  The Python object is
mutated field by field in source order; the Bool records whether the call
completed without raising.  The caller swallows any exception, so a
partially mutated position is observable. -/
def position.updateFrom (p : position) (ln : Str) : position × Bool :=
  if 3 ≤ (splitFields ln).length then
    match pyFloat ((splitFields ln).getD 1 []) with
    | none => (p, false)
    | some la =>
      let p1 := { p with lat := some la }
      match pyFloat ((splitFields ln).getD 2 []) with
      | none => (p1, false)
      | some lo =>
        let p2 := { p1 with lon := some lo }
        if 6 ≤ (splitFields ln).length then
          match pyFloat ((splitFields ln).getD 3 []) with
          | none => (p2, false)
          | some al =>
            let p3 := { p2 with alt_m := some al }
            match pyFloat ((splitFields ln).getD 4 []) with
            | none => (p3, false)
            | some tr =>
              let p4 := { p3 with track := some tr }
              match pyFloat ((splitFields ln).getD 5 []) with
              | none => (p4, false)
              | some gs => ({ p4 with gndSpd_m_per_s := some gs }, true)
        else (p2, true)
  else (p, true)

namespace V0

/-- Mutable state of the legacy sender (Data/RealTraffic/SendTraffic.py):
pacing offset (integer, `0` is the unset sentinel), buffer period and
aircraft filter. -/
structure St where
  tsDiff : Int
  bufPeriod : Int
  ac : List Int
deriving DecidableEq

/-- Result of one legacy `compWaitTS` call. -/
structure CWOut where
  out : Str
  val : Int
  wait : Int
  st : St
deriving DecidableEq

/-- Model of the legacy `compWaitTS` (Data/RealTraffic/SendTraffic.py,
lines 42-64): timestamps are parsed with `int()` and there is no
historic offset. -/
def compWaitTS (st : St) (now : Int) (ts_s : Str) : Option CWOut :=
  match pyInt ts_s with
  | none => none
  | some ts =>
    let d := if st.tsDiff = 0 then now - ts - st.bufPeriod else st.tsDiff
    let ts1 := ts + d
    let wait := if ts1 > now then ts1 - now else 0
    some { out := intStr ts1, val := ts1, wait := wait, st := { st with tsDiff := d } }

/-- Result of one legacy `sendTrafficData` call. -/
structure TDOut where
  sent : List Str
  diag : Bool
  ret : Nat
  wait : Int
  st : St
deriving DecidableEq

/-- Pacing and unconditional send of the legacy sender (lines 77-86). -/
def paceAndSend (st : St) (now : Int) (fields : List Str) : Option TDOut :=
  match compWaitTS st now (fields.getD 14 []) with
  | none => none
  | some o =>
    some { sent := [joinFields (fields.set 14 o.out)], diag := false, ret := 1,
           wait := o.wait, st := o.st }

/-- The legacy filter test `not _ac or int(fields[1]) in _ac` with Python
short-circuit evaluation, then pacing (lines 76-86). -/
def filterAndPace (st : St) (now : Int) (fields : List Str) : Option TDOut :=
  if st.ac.isEmpty then paceAndSend st now fields
  else
    match pyInt (fields.getD 1 []) with
    | none => none
    | some i =>
      if i ∈ st.ac then paceAndSend st now fields
      else some { sent := [], diag := false, ret := 1, wait := 0, st := st }

/-- Model of the legacy `sendTrafficData` (Data/RealTraffic/SendTraffic.py,
lines 67-87).  Note the field-count gate: `if len(fields) != 15`, so a
record with more than 15 fields is also rejected with the diagnostic. -/
def sendTrafficData (st : St) (now : Int) (ln : Str) : Option TDOut :=
  if (splitFields ln).length ≠ 15 then
    some { sent := [], diag := true, ret := 0, wait := 0, st := st }
  else filterAndPace st now (splitFields ln)

/-- Model of the legacy `sendWeatherData` (Data/RealTraffic/SendTraffic.py,
lines 89-93): the line is only printed when verbose; no datagram is sent
to any destination, so the emitted datagram list is empty. -/
def sendWeatherData (ln : Str) : List Str :=
  []

/-- One iteration of the legacy main loop (Data/RealTraffic/SendTraffic.py,
lines 130-138): strip, classify by the single AITFC tag, dispatch.  The
result carries the traffic datagrams, the weather datagrams (always none
in this sender) and the updated state. -/
def processLine (st : St) (now : Int) (raw : Str) :
    Option (List Str × List Str × St) :=
  if "AITFC".toList.isPrefixOf (pyStrip raw) then
    match sendTrafficData st now (pyStrip raw) with
    | none => none
    | some o => some (o.sent, [], o.st)
  else some ([], sendWeatherData (pyStrip raw), st)

end V0

def stA : St :=
  { tsDiff := 0, bufPeriod := 0, historic := 0, ac := [], sendLn := true, loop := false }

def stB : St :=
  { tsDiff := 5, bufPeriod := 0, historic := 0, ac := [], sendLn := true, loop := false }

def stC : St :=
  { tsDiff := 0, bufPeriod := 2, historic := 0, ac := [], sendLn := true, loop := false }

def line16 : Str := "AITFC,123,a,b,c,d,e,f,g,h,i,j,k,l,90,x".toList

def stV : V0.St := { tsDiff := 0, bufPeriod := 0, ac := [] }

def line15 : Str := "AITFC,123,a,b,c,d,e,f,g,h,i,j,k,l,90.0".toList

def lineBad : Str := "AITFC,12x,a,b,c,d,e,f,g,h,i,j,k,l,90.0".toList

def shortLine : Str := "AITFC,1,2".toList

def stG : St :=
  { tsDiff := 0, bufPeriod := 0, historic := 0, ac := [999], sendLn := true, loop := false }

def stL : St :=
  { tsDiff := 0, bufPeriod := 3, historic := 0, ac := [], sendLn := true, loop := true }

def st1L : St :=
  { tsDiff := 7, bufPeriod := 3, historic := 0, ac := [], sendLn := true, loop := true }

def p0 : position :=
  { lat := some 1, lon := some 2, alt_m := some 3, track := some 4, gndSpd_m_per_s := some 5 }

theorem digitChar_ne_comma (d : Nat) : digitChar d ≠ ',' := by
  unfold digitChar
  have h : d % 10 < 10 := Nat.mod_lt _ (by norm_num)
  set m := d % 10 with hm
  interval_cases m <;> decide

theorem natStrAux_comma_not_mem (fuel n : Nat) : ',' ∉ natStrAux fuel n := by
  induction fuel generalizing n with
  | zero => simp [natStrAux]
  | succ fuel ih =>
    unfold natStrAux
    by_cases h : n < 10
    · simp only [if_pos h, List.mem_singleton]
      exact (digitChar_ne_comma n).symm
    · simp only [if_neg h, List.mem_append, List.mem_singleton]
      rintro (hc | hc)
      · exact ih (n / 10) hc
      · exact (digitChar_ne_comma (n % 10)).symm hc

theorem natStr_comma_not_mem (n : Nat) : ',' ∉ natStr n :=
  natStrAux_comma_not_mem _ _

theorem natStrPad_comma_not_mem (k n : Nat) : ',' ∉ natStrPad k n := by
  unfold natStrPad
  simp only [List.mem_append]
  rintro (hc | hc)
  · exact absurd (List.eq_of_mem_replicate hc) (by decide)
  · exact natStr_comma_not_mem n hc

theorem ratSign_comma_not_mem (q : Rat) : ',' ∉ ratSign q := by
  unfold ratSign
  split <;> decide

theorem ratToStr_comma_not_mem (q : Rat) : ',' ∉ ratToStr q := by
  unfold ratToStr
  intro hc
  split at hc
  · rcases List.mem_append.mp hc with hc | hc
    · rcases List.mem_append.mp hc with hc | hc
      · exact ratSign_comma_not_mem q hc
      · exact natStr_comma_not_mem _ hc
    · simp at hc
  · rcases List.mem_append.mp hc with hc | hc
    · rcases List.mem_append.mp hc with hc | hc
      · rcases List.mem_append.mp hc with hc | hc
        · exact ratSign_comma_not_mem q hc
        · exact natStr_comma_not_mem _ hc
      · simp at hc
    · exact natStrPad_comma_not_mem _ _ hc
  · rcases List.mem_append.mp hc with hc | hc
    · rcases List.mem_append.mp hc with hc | hc
      · rcases List.mem_append.mp hc with hc | hc
        · exact ratSign_comma_not_mem q hc
        · exact natStr_comma_not_mem _ hc
      · simp at hc
    · exact natStr_comma_not_mem _ hc

theorem splitOn_sep_not_mem {α : Type} [DecidableEq α] (x : α) (xs : List α) :
    ∀ l ∈ xs.splitOn x, x ∉ l := by
  induction xs with
  | nil =>
    intro l hl
    simp only [List.splitOn_nil, List.mem_singleton] at hl
    simp [hl]
  | cons a as ih =>
    intro l hl
    simp only [List.splitOn] at hl ih
    rw [List.splitOnP_cons] at hl
    by_cases hax : (a == x) = true
    · simp only [hax, if_true] at hl
      rcases List.mem_cons.mp hl with h | h
      · simp [h]
      · exact ih l h
    · simp only [hax] at hl
      rcases hsp : List.splitOnP (fun b => b == x) as with _ | ⟨hd, tl⟩
      · exact absurd hsp (List.splitOnP_ne_nil _ as)
      · rw [hsp, List.modifyHead] at hl
        rcases List.mem_cons.mp hl with h | h
        · subst h
          intro hmem
          rcases List.mem_cons.mp hmem with h | h
          · exact hax (by simp [h])
          · exact ih hd (by rw [hsp]; exact List.mem_cons_self _ _) h
        · exact ih l (by rw [hsp]; exact List.mem_cons_of_mem _ h)

theorem splitFields_joinFields (fs : List Str) (h : ∀ l ∈ fs, ',' ∉ l)
    (hne : fs ≠ []) : splitFields (joinFields fs) = fs := by
  unfold splitFields joinFields
  exact List.splitOn_intercalate fs ',' h hne

/-- C2 (amended): once `_tsDiff` has been set to a nonzero value in a pass,
every later `compWaitTS` call of the pass uses that offset unchanged; but
whenever `_tsDiff` is `0` — the unset sentinel, which is also a possible
computed offset value — the offset is (re)computed from the current record. -/
theorem C2_offset_stability (st : St) (now : Int) (ts_s : Str) (v : Rat)
    (hts : pyFloat ts_s = some v) :
    (st.tsDiff ≠ 0 → ∃ o, compWaitTS st now ts_s = some o ∧ o.st.tsDiff = st.tsDiff ∧
        o.val = v + st.tsDiff - (st.historic : Rat)) ∧
    (st.tsDiff = 0 → ∃ o, compWaitTS st now ts_s = some o ∧
        o.st.tsDiff = (now : Rat) - v - (st.bufPeriod : Rat)) := by
  constructor
  · intro h
    unfold compWaitTS
    rw [hts]
    refine ⟨_, rfl, ?_, ?_⟩
    · simp [h]
    · simp [h]
  · intro h
    unfold compWaitTS
    rw [hts]
    refine ⟨_, rfl, ?_⟩
    simp [h]

/-- Witness for C2_offset_stability at a concrete state with offset 5. -/
theorem C2_witness : ∃ o, compWaitTS stB 100 ['9', '0', '.', '0'] = some o ∧
    o.st.tsDiff = stB.tsDiff ∧ o.val = 90 + stB.tsDiff - (stB.historic : Rat) :=
  (C2_offset_stability stB 100 ['9', '0', '.', '0'] 90 (by decide)).1 (by decide)

/-- C2 counterexample: starting from the unset state, a first call at
wall-clock 100 with record timestamp 100.0 sets `_tsDiff` to `0`; the next
call at wall-clock 105 with record timestamp 101.0 then uses offset `4`,
not the value `0` the first call had set: the offset is recomputed
mid-pass when the value set was `0`. -/
theorem C2_cex :
    ((compWaitTS stA 100 ['1', '0', '0', '.', '0']).map (fun o => o.st.tsDiff) = some 0) ∧
    (((compWaitTS stA 100 ['1', '0', '0', '.', '0']).bind
        (fun o1 => compWaitTS o1.st 105 ['1', '0', '1', '.', '0'])).map
      (fun o => o.st.tsDiff) = some 4) ∧ (0 : Rat) ≠ 4 := by
  have h1 : pyFloat ['1', '0', '0', '.', '0'] = some 100 := by decide
  have h2 : pyFloat ['1', '0', '1', '.', '0'] = some 101 := by decide
  refine ⟨?_, ?_, by norm_num⟩
  · simp [compWaitTS, stA, h1]
  · simp [compWaitTS, stA, h1, h2]
    norm_num

/-- C3 (amended): with historic offset 0 and the pass offset unset, the
first record processed by `compWaitTS` at wall-clock `W0` with record
timestamp `T0` computes `_tsDiff = W0 - T0 - B` (`B` the configured
buffer period) and returns the timestamp value `W0 - B`, written back as
text; and this computation happens only once for the pass provided the
computed offset is nonzero — a later call then leaves the offset at
`W0 - T0 - B` (a computed offset of exactly 0 is the unset sentinel and
is recomputed, see the C2 correction). -/
theorem C3_first_record_ts (st : St) (W0 : Int) (ts0 : Str) (T0 : Rat)
    (hunset : st.tsDiff = 0) (hhist : st.historic = 0)
    (hts : pyFloat ts0 = some T0) :
    ∃ o, compWaitTS st W0 ts0 = some o ∧
      o.st.tsDiff = (W0 : Rat) - T0 - (st.bufPeriod : Rat) ∧
      o.val = (W0 : Rat) - (st.bufPeriod : Rat) ∧
      o.out = ratToStr ((W0 : Rat) - (st.bufPeriod : Rat)) ∧
      ((W0 : Rat) - T0 - (st.bufPeriod : Rat) ≠ 0 →
        ∀ (now2 : Int) (ts2 : Str) (v2 : Rat), pyFloat ts2 = some v2 →
          ∃ o2, compWaitTS o.st now2 ts2 = some o2 ∧
            o2.st.tsDiff = (W0 : Rat) - T0 - (st.bufPeriod : Rat)) := by
  unfold compWaitTS
  rw [hts]
  refine ⟨_, rfl, ?_, ?_, ?_, ?_⟩
  · simp [hunset]
  · simp [hunset, hhist]
    ring
  · simp [hunset, hhist]
    congr 1
    ring
  · intro hne now2 ts2 v2 hv2
    rw [hv2]
    refine ⟨_, rfl, ?_⟩
    simp [hunset, hne]

/-- C3 counterexample: with buffer period 2, a first record with
timestamp 98.0 at wall-clock 100 computes the offset `100 - 98 - 2 = 0`,
and the next record of the same pass (timestamp 99.0 at wall-clock 107)
computes the offset again, now as 6 — the offset is not computed exactly
once per pass. -/
theorem C3_cex :
    ((compWaitTS stC 100 ['9', '8', '.', '0']).map (fun o => o.st.tsDiff) = some 0) ∧
    (((compWaitTS stC 100 ['9', '8', '.', '0']).bind
        (fun o1 => compWaitTS o1.st 107 ['9', '9', '.', '0'])).map
      (fun o => o.st.tsDiff) = some 6) ∧ (0 : Rat) ≠ 6 := by
  have h1 : pyFloat ['9', '8', '.', '0'] = some 98 := by decide
  have h2 : pyFloat ['9', '9', '.', '0'] = some 99 := by decide
  refine ⟨?_, ?_, by norm_num⟩
  · simp [compWaitTS, stC, h1]
    norm_num
  · simp [compWaitTS, stC, h1, h2]
    norm_num

/-- Witness for C3_first_record_ts with buffer period 2 and a nonzero
computed offset. -/
theorem C3_witness : ∃ o, compWaitTS stC 100 ['9', '0', '.', '0'] = some o ∧
    o.st.tsDiff = (100 : Rat) - 90 - (stC.bufPeriod : Rat) ∧
    o.val = (100 : Rat) - (stC.bufPeriod : Rat) ∧
    o.out = ratToStr ((100 : Rat) - (stC.bufPeriod : Rat)) ∧
    ((100 : Rat) - 90 - (stC.bufPeriod : Rat) ≠ 0 →
      ∀ (now2 : Int) (ts2 : Str) (v2 : Rat), pyFloat ts2 = some v2 →
        ∃ o2, compWaitTS o.st now2 ts2 = some o2 ∧
          o2.st.tsDiff = (100 : Rat) - 90 - (stC.bufPeriod : Rat)) :=
  C3_first_record_ts stC 100 ['9', '0', '.', '0'] 90 rfl rfl (by decide)


theorem getD_set_ne {α : Type} (l : List α) (d : α) (i j : Nat) (a : α)
    (h : i ≠ j) : (l.set i a).getD j d = l.getD j d := by
  simp [List.getD, List.getElem?_set_ne h]

theorem compWaitTS_out (st : St) (now : Int) (s : Str) (o : CWOut)
    (h : compWaitTS st now s = some o) : o.out = ratToStr o.val := by
  unfold compWaitTS at h
  rcases hp : pyFloat s with _ | ts
  · rw [hp] at h; cases h
  · rw [hp] at h
    cases h
    rfl

theorem compWaitTS_isSome (st : St) (now : Int) (s : Str) (v : Rat)
    (h : pyFloat s = some v) : ∃ o, compWaitTS st now s = some o := by
  unfold compWaitTS
  rw [h]
  exact ⟨_, rfl⟩

theorem compWaitTS_first_facts (st : St) (now : Int) (s : Str) (v : Rat)
    (hts : pyFloat s = some v) (hunset : st.tsDiff = 0) (o : CWOut)
    (h : compWaitTS st now s = some o) :
    o.st.tsDiff = (now : Rat) - v - (st.bufPeriod : Rat) ∧
    o.val = (now : Rat) - (st.bufPeriod : Rat) - (st.historic : Rat) := by
  unfold compWaitTS at h
  rw [hts] at h
  cases h
  constructor
  · simp [hunset]
  · simp [hunset]
    ring

theorem filterAndPace_pass (st : St) (now : Int) (fields : List Str) (ds : Bool)
    (hfilt : st.ac = [] ∨ ∃ a, pyInt (fields.getD 1 []) = some a ∧ a ∈ st.ac) :
    filterAndPace st now fields ds = paceAndSend st now fields ds := by
  rcases hfilt with hac | ⟨a, ha, hmem⟩
  · unfold filterAndPace
    rw [hac]
    rfl
  · unfold filterAndPace
    have hne : st.ac.isEmpty = false := by
      cases hl : st.ac
      · rw [hl] at hmem; cases hmem
      · rfl
    rw [hne, ha]
    simp [hmem]

theorem filterAndPace_drop (st : St) (now : Int) (fields : List Str) (ds : Bool)
    (i : Int) (ha : pyInt (fields.getD 1 []) = some i) (hni : i ∉ st.ac)
    (hne : st.ac ≠ []) :
    filterAndPace st now fields ds =
      some { sent := [], diag := false, ret := 1, fieldsAfter := fields,
             wait := 0, st := st } := by
  unfold filterAndPace
  have hemp : st.ac.isEmpty = false := by
    cases hl : st.ac
    · exact absurd hl hne
    · rfl
  rw [hemp, ha]
  simp [hni]

theorem sendTrafficData_pass_eq (st : St) (now : Int) (ln : Str) (ds : Bool)
    (cw : CWOut) (hlen : 15 ≤ (splitFields ln).length)
    (hfilt : st.ac = [] ∨ ∃ a, pyInt ((splitFields ln).getD 1 []) = some a ∧ a ∈ st.ac)
    (hcw : compWaitTS st now ((splitFields ln).getD 14 []) = some cw) :
    sendTrafficData st now ln ds =
      some { sent := if ds then [joinFields ((splitFields ln).set 14 cw.out)] else [],
             diag := false, ret := 1,
             fieldsAfter := (splitFields ln).set 14 cw.out,
             wait := cw.wait, st := cw.st } := by
  have hnl : ¬ ((splitFields ln).length < 15) := by omega
  unfold sendTrafficData
  rw [if_neg hnl, filterAndPace_pass st now _ ds hfilt]
  unfold paceAndSend
  rw [hcw]

theorem splitFields_set14_roundtrip (ln : Str) (t : Str)
    (hlen : 15 ≤ (splitFields ln).length) (ht : ',' ∉ t) :
    splitFields (joinFields ((splitFields ln).set 14 t)) =
      (splitFields ln).set 14 t := by
  apply splitFields_joinFields
  · intro l hl
    rcases List.mem_or_eq_of_mem_set hl with h | h
    · exact splitOn_sep_not_mem ',' ln l h
    · rw [h]; exact ht
  · intro hnil
    have h0 : ((splitFields ln).set 14 t).length = 0 := by rw [hnil]; rfl
    rw [List.length_set] at h0
    omega

/-- C1: a traffic record with at least 15 fields that passes the aircraft
filter is re-emitted as one datagram with the same field count, every
field except index 14 (the timestamp) identical to the corresponding
input field. -/
theorem C1_emitted_fields (st : St) (now : Int) (ln : Str) (v : Rat)
    (hlen : 15 ≤ (splitFields ln).length)
    (hfilt : st.ac = [] ∨ ∃ a, pyInt ((splitFields ln).getD 1 []) = some a ∧ a ∈ st.ac)
    (hts : pyFloat ((splitFields ln).getD 14 []) = some v) :
    ∃ o, sendTrafficData st now ln true = some o ∧
      ∃ d, o.sent = [d] ∧
        (splitFields d).length = (splitFields ln).length ∧
        ∀ i : Nat, i ≠ 14 → (splitFields d).getD i [] = (splitFields ln).getD i [] := by
  obtain ⟨cw, hcw⟩ := compWaitTS_isSome st now _ v hts
  have hout : cw.out = ratToStr cw.val := compWaitTS_out _ _ _ _ hcw
  have hcomma : ',' ∉ cw.out := by rw [hout]; exact ratToStr_comma_not_mem _
  have hround := splitFields_set14_roundtrip ln cw.out hlen hcomma
  refine ⟨_, sendTrafficData_pass_eq st now ln true cw hlen hfilt hcw,
    joinFields ((splitFields ln).set 14 cw.out), rfl, ?_, ?_⟩
  · rw [hround, List.length_set]
  · intro i hi
    rw [hround]
    exact getD_set_ne _ _ 14 i cw.out (fun h => hi h.symm)

/-- C5: with aircraft filter `[A]`, a well-formed traffic record whose id
differs from `A` produces no datagram and no diagnostic, one whose id is
`A` produces exactly one datagram; with an empty filter every well-formed
traffic record produces exactly one datagram. -/
theorem C5_aircraft_filter (st : St) (now : Int) (ln : Str) (A : Int) (v : Rat)
    (hlen : 15 ≤ (splitFields ln).length)
    (hts : pyFloat ((splitFields ln).getD 14 []) = some v) :
    (∀ i : Int, st.ac = [A] → pyInt ((splitFields ln).getD 1 []) = some i →
      (i ≠ A → ∃ o, sendTrafficData st now ln true = some o ∧
        o.sent = [] ∧ o.diag = false) ∧
      (i = A → ∃ o, sendTrafficData st now ln true = some o ∧ o.sent.length = 1)) ∧
    (st.ac = [] → ∃ o, sendTrafficData st now ln true = some o ∧
      o.sent.length = 1) := by
  obtain ⟨cw, hcw⟩ := compWaitTS_isSome st now _ v hts
  have hnl : ¬ ((splitFields ln).length < 15) := by omega
  constructor
  · intro i hA hi
    constructor
    · intro hne
      have hdrop := filterAndPace_drop st now (splitFields ln) true i hi
        (by rw [hA]; simp [hne]) (by rw [hA]; simp)
      have hsd : sendTrafficData st now ln true =
          some { sent := [], diag := false, ret := 1,
                 fieldsAfter := splitFields ln, wait := 0, st := st } := by
        unfold sendTrafficData
        rw [if_neg hnl, hdrop]
      exact ⟨_, hsd, rfl, rfl⟩
    · intro heq
      have hmem : i ∈ st.ac := by rw [hA, heq]; exact List.mem_singleton_self A
      refine ⟨_, sendTrafficData_pass_eq st now ln true cw hlen
        (Or.inr ⟨i, hi, hmem⟩) hcw, rfl⟩
  · intro hac
    exact ⟨_, sendTrafficData_pass_eq st now ln true cw hlen (Or.inl hac) hcw, rfl⟩

/-- C7: with a non-empty aircraft filter, a well-formed traffic record
whose id field is not parseable as an integer makes the whole call fail
with the propagated error; with an empty filter the id is never parsed
and the record is forwarded with its id field unchanged. -/
theorem C7_unparseable_id (st : St) (now : Int) (ln : Str)
    (hlen : 15 ≤ (splitFields ln).length) :
    (st.ac ≠ [] → pyInt ((splitFields ln).getD 1 []) = none →
      sendTrafficData st now ln true = none) ∧
    (st.ac = [] → ∀ v : Rat, pyFloat ((splitFields ln).getD 14 []) = some v →
      ∃ o d, sendTrafficData st now ln true = some o ∧ o.sent = [d] ∧
        (splitFields d).getD 1 [] = (splitFields ln).getD 1 []) := by
  have hnl : ¬ ((splitFields ln).length < 15) := by omega
  constructor
  · intro hne hparse
    unfold sendTrafficData
    rw [if_neg hnl]
    unfold filterAndPace
    have hemp : st.ac.isEmpty = false := by
      cases hl : st.ac
      · exact absurd hl hne
      · rfl
    rw [hemp, hparse]
    rfl
  · intro hac v hts
    obtain ⟨cw, hcw⟩ := compWaitTS_isSome st now _ v hts
    have hout : cw.out = ratToStr cw.val := compWaitTS_out _ _ _ _ hcw
    have hcomma : ',' ∉ cw.out := by rw [hout]; exact ratToStr_comma_not_mem _
    have hround := splitFields_set14_roundtrip ln cw.out hlen hcomma
    refine ⟨_, joinFields ((splitFields ln).set 14 cw.out),
      sendTrafficData_pass_eq st now ln true cw hlen (Or.inl hac) hcw, rfl, ?_⟩
    rw [hround]
    exact getD_set_ne _ _ 14 1 cw.out (by omega)

/-- C10: a suppressed first traffic record of a looped pass is processed
fully — it establishes the pass offset from its own timestamp, performs
the same wait, and rewrites its timestamp field in memory — and only the
socket send is skipped, compared with the same call with sending on. -/
theorem C10_suppressed_record_active (st : St) (now : Int) (ln : Str) (v : Rat)
    (hlen : 15 ≤ (splitFields ln).length)
    (hfilt : st.ac = [] ∨ ∃ a, pyInt ((splitFields ln).getD 1 []) = some a ∧ a ∈ st.ac)
    (hts : pyFloat ((splitFields ln).getD 14 []) = some v)
    (hunset : st.tsDiff = 0) :
    ∃ o os, sendTrafficData st now ln false = some o ∧
      sendTrafficData st now ln true = some os ∧
      o.sent = [] ∧
      o.st.tsDiff = (now : Rat) - v - (st.bufPeriod : Rat) ∧
      o.st = os.st ∧ o.wait = os.wait ∧ o.fieldsAfter = os.fieldsAfter ∧
      o.fieldsAfter = (splitFields ln).set 14
        (ratToStr ((now : Rat) - (st.bufPeriod : Rat) - (st.historic : Rat))) ∧
      os.sent = [joinFields o.fieldsAfter] := by
  obtain ⟨cw, hcw⟩ := compWaitTS_isSome st now _ v hts
  obtain ⟨hd, hval⟩ := compWaitTS_first_facts st now _ v hts hunset cw hcw
  have hout : cw.out = ratToStr cw.val := compWaitTS_out _ _ _ _ hcw
  refine ⟨_, _, sendTrafficData_pass_eq st now ln false cw hlen hfilt hcw,
    sendTrafficData_pass_eq st now ln true cw hlen hfilt hcw,
    rfl, hd, rfl, rfl, rfl, ?_, rfl⟩
  rw [hout, hval]

theorem compWaitTS_static (st : St) (now : Int) (s : Str) (o : CWOut)
    (h : compWaitTS st now s = some o) :
    o.st.bufPeriod = st.bufPeriod ∧ o.st.historic = st.historic ∧
    o.st.ac = st.ac ∧ o.st.sendLn = st.sendLn ∧ o.st.loop = st.loop := by
  unfold compWaitTS at h
  rcases hp : pyFloat s with _ | ts
  · rw [hp] at h; cases h
  · rw [hp] at h
    cases h
    exact ⟨rfl, rfl, rfl, rfl, rfl⟩

theorem paceAndSend_static (st : St) (now : Int) (fields : List Str) (ds : Bool)
    (o : TDOut) (h : paceAndSend st now fields ds = some o) :
    o.st.bufPeriod = st.bufPeriod ∧ o.st.historic = st.historic ∧
    o.st.ac = st.ac ∧ o.st.sendLn = st.sendLn ∧ o.st.loop = st.loop := by
  unfold paceAndSend at h
  rcases hc : compWaitTS st now (fields.getD 14 []) with _ | cw
  · rw [hc] at h; cases h
  · rw [hc] at h
    cases h
    exact compWaitTS_static _ _ _ _ hc

theorem sendTrafficData_static (st : St) (now : Int) (ln : Str) (ds : Bool)
    (o : TDOut) (h : sendTrafficData st now ln ds = some o) :
    o.st.bufPeriod = st.bufPeriod ∧ o.st.historic = st.historic ∧
    o.st.ac = st.ac ∧ o.st.sendLn = st.sendLn ∧ o.st.loop = st.loop := by
  unfold sendTrafficData filterAndPace at h
  by_cases hlen : (splitFields ln).length < 15
  · rw [if_pos hlen] at h
    cases h
    exact ⟨rfl, rfl, rfl, rfl, rfl⟩
  · rw [if_neg hlen] at h
    by_cases hemp : st.ac.isEmpty = true
    · rw [if_pos hemp] at h
      exact paceAndSend_static _ _ _ _ _ h
    · rw [if_neg hemp] at h
      rcases hp : pyInt ((splitFields ln).getD 1 []) with _ | i
      · rw [hp] at h; cases h
      · simp only [hp] at h
        by_cases hmem : i ∈ st.ac
        · rw [if_pos hmem] at h
          exact paceAndSend_static _ _ _ _ _ h
        · rw [if_neg hmem] at h
          cases h
          exact ⟨rfl, rfl, rfl, rfl, rfl⟩

theorem processLine_static (st : St) (now : Int) (raw : Str) (o : StepOut)
    (h : processLine st now raw = some o) :
    o.st.bufPeriod = st.bufPeriod ∧ o.st.historic = st.historic ∧
    o.st.ac = st.ac ∧ o.st.loop = st.loop := by
  unfold processLine at h
  by_cases ht : isTrafficLine (pyStrip raw) = true
  · rw [if_pos ht] at h
    rcases hsd : sendTrafficData st now (pyStrip raw) st.sendLn with _ | o2
    · rw [hsd] at h; cases h
    · rw [hsd] at h
      cases h
      obtain ⟨h1, h2, h3, _, h5⟩ := sendTrafficData_static _ _ _ _ _ hsd
      exact ⟨h1, h2, h3, h5⟩
  · rw [if_neg ht] at h
    cases h
    exact ⟨rfl, rfl, rfl, rfl⟩

theorem runPass_nil (st : St) : runPass st [] = some ([], [], st) := rfl

theorem runPass_cons (st : St) (now : Int) (raw : Str)
    (rest : List (Int × Str)) :
    runPass st ((now, raw) :: rest) =
      (processLine st now raw).bind (fun o =>
        (runPass o.st rest).map
          (fun r => (o.traffic ++ r.1, o.weather ++ r.2.1, r.2.2))) := rfl

theorem runPass_static (st : St) (ls : List (Int × Str)) (t w : List Str)
    (st2 : St) (h : runPass st ls = some (t, w, st2)) :
    st2.bufPeriod = st.bufPeriod ∧ st2.historic = st.historic ∧
    st2.ac = st.ac ∧ st2.loop = st.loop := by
  induction ls generalizing st t w with
  | nil =>
    rw [runPass_nil] at h
    cases h
    exact ⟨rfl, rfl, rfl, rfl⟩
  | cons hd tl ih =>
    rcases hd with ⟨n, raw⟩
    rw [runPass_cons] at h
    rcases hp : processLine st n raw with _ | o
    · rw [hp] at h; cases h
    · rw [hp, Option.some_bind] at h
      rcases hr : runPass o.st tl with _ | ⟨⟨t3, w3, s3⟩⟩
      · rw [hr] at h; cases h
      · rw [hr, Option.map_some'] at h
        cases h
        obtain ⟨h1, h2, h3, h4⟩ := processLine_static st n raw o hp
        obtain ⟨g1, g2, g3, g4⟩ := ih o.st t3 w3 hr
        exact ⟨g1.trans h1, g2.trans h2, g3.trans h3, g4.trans h4⟩

theorem paceAndSend_noSend (st : St) (now : Int) (fields : List Str) (o : TDOut)
    (h : paceAndSend st now fields false = some o) : o.sent = [] := by
  unfold paceAndSend at h
  rcases hc : compWaitTS st now (fields.getD 14 []) with _ | cw
  · rw [hc] at h; cases h
  · rw [hc] at h
    cases h
    rfl

theorem sendTrafficData_noSend (st : St) (now : Int) (ln : Str) (o : TDOut)
    (h : sendTrafficData st now ln false = some o) : o.sent = [] := by
  unfold sendTrafficData filterAndPace at h
  by_cases hlen : (splitFields ln).length < 15
  · rw [if_pos hlen] at h
    cases h
    rfl
  · rw [if_neg hlen] at h
    by_cases hemp : st.ac.isEmpty = true
    · rw [if_pos hemp] at h
      exact paceAndSend_noSend _ _ _ _ h
    · rw [if_neg hemp] at h
      rcases hp : pyInt ((splitFields ln).getD 1 []) with _ | i
      · rw [hp] at h; cases h
      · simp only [hp] at h
        by_cases hmem : i ∈ st.ac
        · rw [if_pos hmem] at h
          exact paceAndSend_noSend _ _ _ _ h
        · rw [if_neg hmem] at h
          cases h
          rfl

theorem processLine_weather (st : St) (now : Int) (raw : Str)
    (h : isTrafficLine (pyStrip raw) = false) :
    processLine st now raw =
      some { traffic := [], weather := [pyStrip raw], wait := 0, st := st } := by
  unfold processLine
  rw [h]
  rfl

theorem processLine_traffic (st : St) (now : Int) (raw : Str) (o2 : TDOut)
    (h : isTrafficLine (pyStrip raw) = true)
    (hsd : sendTrafficData st now (pyStrip raw) st.sendLn = some o2) :
    processLine st now raw =
      some { traffic := o2.sent, weather := [], wait := o2.wait,
             st := { o2.st with sendLn := true } } := by
  unfold processLine
  rw [h, hsd]
  rfl

theorem runPass_weather_prefix (st : St) (pre xs : List (Int × Str))
    (hpre : ∀ p ∈ pre, isTrafficLine (pyStrip p.2) = false) :
    runPass st (pre ++ xs) =
      (runPass st xs).map
        (fun r => (r.1, pre.map (fun p => pyStrip p.2) ++ r.2.1, r.2.2)) := by
  induction pre with
  | nil =>
    simp only [List.nil_append, List.map_nil]
    rcases hr : runPass st xs with _ | ⟨⟨t, w, s2⟩⟩
    · rfl
    · simp [Option.map]
  | cons hd tl ih =>
    have hw : isTrafficLine (pyStrip hd.2) = false := hpre hd (List.mem_cons_self _ _)
    have hpt : ∀ p ∈ tl, isTrafficLine (pyStrip p.2) = false :=
      fun p hp => hpre p (List.mem_cons_of_mem _ hp)
    rcases hd with ⟨n, raw⟩
    rw [List.cons_append]
    have hstep : runPass st ((n, raw) :: (tl ++ xs)) =
        (runPass st (tl ++ xs)).map
          (fun r => (r.1, pyStrip raw :: r.2.1, r.2.2)) := by
      rw [runPass_cons, processLine_weather st n raw hw]
      simp only [Option.some_bind]
      rcases hr : runPass st (tl ++ xs) with _ | ⟨⟨t, w, s2⟩⟩ <;> simp [hr]
    rw [hstep, ih hpt]
    rcases hr : runPass st xs with _ | ⟨⟨t, w, s2⟩⟩ <;> simp

theorem mainLoop_succ (fuel : Nat) (st : St) (file : List (Int × Str)) :
    mainLoop (fuel + 1) st file =
      (runPass (startPass st) file).bind (fun r =>
        if r.2.2.loop then
          (mainLoop fuel (loopSeam r.2.2) file).map
            (fun q => ((r.1, r.2.1) :: q.1, q.2))
        else some ([(r.1, r.2.1)], r.2.2)) := rfl

/-- C4: at the end-of-stream seam with looping enabled, the engine resets
the pacing offset to unset and the buffer period to zero (and every later
seam keeps the buffer period zero), the next pass re-reads the same input
from its beginning, and the first traffic record of the new pass emits no
datagram while the rest of the pass runs from a send-enabled state. -/
theorem C4_loop_seam (st st1 : St) (file pre rest : List (Int × Str)) (n0 : Int)
    (L0 : Str) (t1 w1 : List Str)
    (hloop : st.loop = true)
    (h1 : runPass (startPass st) file = some (t1, w1, st1))
    (hfile : file = pre ++ (n0, L0) :: rest)
    (hpre : ∀ p ∈ pre, isTrafficLine (pyStrip p.2) = false)
    (hL0 : isTrafficLine (pyStrip L0) = true) :
    (startPass (loopSeam st1)).tsDiff = 0 ∧
    (startPass (loopSeam st1)).bufPeriod = 0 ∧
    (startPass (loopSeam st1)).sendLn = false ∧
    (∀ s : St, (loopSeam s).bufPeriod = 0) ∧
    (∀ ls t w s2, runPass (startPass (loopSeam st1)) ls = some (t, w, s2) →
      s2.bufPeriod = 0 ∧ (startPass (loopSeam s2)).bufPeriod = 0) ∧
    (∀ fuel outs stf, mainLoop (fuel + 1) (loopSeam st1) file = some (outs, stf) →
      mainLoop (fuel + 2) st file = some ((t1, w1) :: outs, stf)) ∧
    (∀ t2 w2 st2, runPass (startPass (loopSeam st1)) file = some (t2, w2, st2) →
      ∃ o, processLine (startPass (loopSeam st1)) n0 L0 = some o ∧
        o.traffic = [] ∧ o.st.sendLn = true ∧
        ∃ t3 w3, runPass o.st rest = some (t3, w3, st2) ∧ t2 = t3 ∧
          w2 = pre.map (fun p => pyStrip p.2) ++ w3) := by
  have hl1 : st1.loop = true := by
    have h := (runPass_static _ _ _ _ _ h1).2.2.2
    rw [h]
    exact hloop
  refine ⟨rfl, rfl, rfl, fun s => rfl, ?_, ?_, ?_⟩
  · intro ls t w s2 h2
    have hb := (runPass_static _ _ _ _ _ h2).1
    constructor
    · rw [hb]; rfl
    · rfl
  · intro fuel outs stf h2
    show mainLoop (fuel + 1 + 1) st file = some ((t1, w1) :: outs, stf)
    rw [mainLoop_succ, h1]
    simp only [Option.some_bind]
    rw [if_pos hl1, h2, Option.map_some']
  · intro t2 w2 st2 h2
    rw [hfile, runPass_weather_prefix _ pre _ hpre] at h2
    rcases hr : runPass (startPass (loopSeam st1)) ((n0, L0) :: rest)
      with _ | ⟨⟨tA, wA, sA⟩⟩
    · rw [hr] at h2; cases h2
    · rw [hr, Option.map_some'] at h2
      cases h2
      rw [runPass_cons] at hr
      rcases hs : sendTrafficData (startPass (loopSeam st1)) n0 (pyStrip L0)
          (startPass (loopSeam st1)).sendLn with _ | o2
      · have hpl : processLine (startPass (loopSeam st1)) n0 L0 = none := by
          unfold processLine
          rw [hL0]
          simp [hs]
        rw [hpl, Option.none_bind] at hr
        cases hr
      · have hptl := processLine_traffic (startPass (loopSeam st1)) n0 L0 o2 hL0 hs
        have hosent : o2.sent = [] := sendTrafficData_noSend _ _ _ o2 hs
        rw [hptl] at hr
        simp only [Option.some_bind] at hr
        rcases hq : runPass ({ o2.st with sendLn := true } : St) rest
          with _ | ⟨⟨t3, w3, s3⟩⟩
        · rw [hq] at hr; cases hr
        · rw [hq, Option.map_some'] at hr
          cases hr
          exact ⟨_, hptl, hosent, rfl, t3, w3, hq, by rw [hosent]; rfl, rfl⟩

theorem paceAndSend_diag (st : St) (now : Int) (fields : List Str) (ds : Bool)
    (o : TDOut) (h : paceAndSend st now fields ds = some o) : o.diag = false := by
  unfold paceAndSend at h
  rcases hc : compWaitTS st now (fields.getD 14 []) with _ | cw
  · rw [hc] at h; cases h
  · rw [hc] at h
    cases h
    rfl

theorem filterAndPace_diag (st : St) (now : Int) (fields : List Str) (ds : Bool)
    (o : TDOut) (h : filterAndPace st now fields ds = some o) : o.diag = false := by
  unfold filterAndPace at h
  by_cases hemp : st.ac.isEmpty = true
  · rw [if_pos hemp] at h
    exact paceAndSend_diag _ _ _ _ _ h
  · rw [if_neg hemp] at h
    rcases hp : pyInt (fields.getD 1 []) with _ | i
    · rw [hp] at h; cases h
    · simp only [hp] at h
      by_cases hmem : i ∈ st.ac
      · rw [if_pos hmem] at h
        exact paceAndSend_diag _ _ _ _ _ h
      · rw [if_neg hmem] at h
        cases h
        rfl

theorem legacyPaceAndSend_diag (st : V0.St) (now : Int) (fields : List Str)
    (o : V0.TDOut) (h : V0.paceAndSend st now fields = some o) :
    o.diag = false ∧ o.ret = 1 := by
  unfold V0.paceAndSend at h
  rcases hc : V0.compWaitTS st now (fields.getD 14 []) with _ | cw
  · rw [hc] at h; cases h
  · rw [hc] at h
    cases h
    exact ⟨rfl, rfl⟩

theorem legacyFilterAndPace_diag (st : V0.St) (now : Int) (fields : List Str)
    (o : V0.TDOut) (h : V0.filterAndPace st now fields = some o) :
    o.diag = false ∧ o.ret = 1 := by
  unfold V0.filterAndPace at h
  by_cases hemp : st.ac.isEmpty = true
  · rw [if_pos hemp] at h
    exact legacyPaceAndSend_diag _ _ _ _ h
  · rw [if_neg hemp] at h
    rcases hp : pyInt (fields.getD 1 []) with _ | i
    · rw [hp] at h; cases h
    · simp only [hp] at h
      by_cases hmem : i ∈ st.ac
      · rw [if_pos hmem] at h
        exact legacyPaceAndSend_diag _ _ _ _ h
      · rw [if_neg hmem] at h
        cases h
        exact ⟨rfl, rfl⟩

/-- C6 (amended): in the current sender a traffic record is rejected with
the malformed-record diagnostic, no datagram and return value 0 exactly
when it has fewer than 15 fields, and with 15 or more fields it proceeds
to filtering and pacing with no diagnostic; the legacy sender instead
rejects exactly when the field count differs from 15 — records with
more than 15 fields are rejected there, and a 15-field record proceeds
to filtering and pacing without the diagnostic. -/
theorem C6_reject_iff (st : St) (stv : V0.St) (now : Int) (ln : Str) (ds : Bool) :
    ((splitFields ln).length < 15 →
      sendTrafficData st now ln ds =
        some { sent := [], diag := true, ret := 0, fieldsAfter := splitFields ln,
               wait := 0, st := st }) ∧
    (15 ≤ (splitFields ln).length →
      sendTrafficData st now ln ds = filterAndPace st now (splitFields ln) ds ∧
      ∀ o, sendTrafficData st now ln ds = some o → o.diag = false) ∧
    ((splitFields ln).length ≠ 15 →
      V0.sendTrafficData stv now ln =
        some { sent := [], diag := true, ret := 0, wait := 0, st := stv }) ∧
    ((splitFields ln).length = 15 →
      V0.sendTrafficData stv now ln = V0.filterAndPace stv now (splitFields ln) ∧
      ∀ o, V0.sendTrafficData stv now ln = some o →
        o.diag = false ∧ o.ret = 1) := by
  refine ⟨?_, ?_, ?_, ?_⟩
  · intro h
    unfold sendTrafficData
    rw [if_pos h]
  · intro h
    have hnl : ¬ ((splitFields ln).length < 15) := by omega
    constructor
    · unfold sendTrafficData
      rw [if_neg hnl]
    · intro o ho
      unfold sendTrafficData at ho
      rw [if_neg hnl] at ho
      exact filterAndPace_diag _ _ _ _ _ ho
  · intro h
    unfold V0.sendTrafficData
    rw [if_pos h]
  · intro h
    have hne : ¬ ((splitFields ln).length ≠ 15) := by omega
    constructor
    · unfold V0.sendTrafficData
      rw [if_neg hne]
    · intro o ho
      unfold V0.sendTrafficData at ho
      rw [if_neg hne] at ho
      exact legacyFilterAndPace_diag _ _ _ _ ho

/-- C6 counterexample: a traffic record with 16 fields has at least 15
fields, yet the legacy sender rejects it with the diagnostic and sends
no datagram, against the claimed if-and-only-if. -/
theorem C6_cex :
    15 ≤ (splitFields line16).length ∧
    V0.sendTrafficData stV 100 line16 =
      some { sent := [], diag := true, ret := 0, wait := 0, st := stV } :=
  ⟨by decide, by decide⟩

/-- C8 (amended): in the current sender, a line whose whitespace-stripped
form carries no traffic tag is forwarded as one datagram to the weather
destination equal to the stripped line — hence byte-identical to the
input exactly when the line has no surrounding whitespace — with no
field parsing applied; the legacy sender cited by the claim forwards no
weather datagram at all, since its sendWeatherData only prints. -/
theorem C8_weather_forward (st : St) (now : Int) (raw : Str)
    (h : isTrafficLine (pyStrip raw) = false) :
    processLine st now raw =
      some { traffic := [], weather := [pyStrip raw], wait := 0, st := st } ∧
    (pyStrip raw = raw →
      processLine st now raw =
        some { traffic := [], weather := [raw], wait := 0, st := st }) ∧
    (∀ stv : V0.St, V0.processLine stv now raw = some ([], [], stv)) := by
  have h1 := processLine_weather st now raw h
  have haitfc : "AITFC".toList.isPrefixOf (pyStrip raw) = false := by
    have h2 := h
    unfold isTrafficLine at h2
    exact (Bool.or_eq_false_iff.mp h2).1
  refine ⟨h1, fun he => ?_, fun stv => ?_⟩
  · rw [he] at h1
    exact h1
  · unfold V0.processLine
    rw [haitfc]
    rfl

/-- C8 counterexample: an input line starting with a space is forwarded
by the current sender with the space stripped, so the weather datagram
is not byte-identical to the input line; and the legacy sender emits no
weather datagram for that line at all, rather than one. -/
theorem C8_cex :
    (processLine stA 0 [' ', 'w'] =
      some { traffic := [], weather := [['w']], wait := 0, st := stA } ∧
    (['w'] : Str) ≠ [' ', 'w']) ∧
    V0.processLine stV 0 [' ', 'w'] = some ([], [], stV) :=
  ⟨⟨by decide, by decide⟩, by decide⟩

/-- C9: a 3-field ownship line with parseable values updates latitude and
longitude only, a 6-field line updates all five values, and a line with
fewer than 3 fields leaves the position unchanged. -/
theorem C9_ownship_update (p : position) :
    (∀ ln tag f1 f2 : Str, ∀ la lo : Rat, splitFields ln = [tag, f1, f2] →
      pyFloat f1 = some la → pyFloat f2 = some lo →
      position.updateFrom p ln =
        ({ p with lat := some la, lon := some lo }, true)) ∧
    (∀ ln tag f1 f2 f3 f4 f5 : Str, ∀ la lo al tr gs : Rat,
      splitFields ln = [tag, f1, f2, f3, f4, f5] →
      pyFloat f1 = some la → pyFloat f2 = some lo → pyFloat f3 = some al →
      pyFloat f4 = some tr → pyFloat f5 = some gs →
      position.updateFrom p ln =
        ({ p with lat := some la, lon := some lo, alt_m := some al, track := some tr, gndSpd_m_per_s := some gs }, true)) ∧
    (∀ ln : Str, (splitFields ln).length < 3 →
      position.updateFrom p ln = (p, true)) := by
  refine ⟨?_, ?_, ?_⟩
  · intro ln tag f1 f2 la lo hsplit h1 h2
    unfold position.updateFrom
    rw [hsplit]
    simp [h1, h2]
  · intro ln tag f1 f2 f3 f4 f5 la lo al tr gs hsplit h1 h2 h3 h4 h5
    unfold position.updateFrom
    rw [hsplit]
    simp [h1, h2, h3, h4, h5]
  · intro ln hl
    unfold position.updateFrom
    rw [if_neg (by omega)]

/-- Witness for C1_emitted_fields on a concrete 15-field record. -/
theorem C1_witness : ∃ o, sendTrafficData stA 100 line15 true = some o ∧
    ∃ d, o.sent = [d] ∧
      (splitFields d).length = (splitFields line15).length ∧
      ∀ i : Nat, i ≠ 14 → (splitFields d).getD i [] = (splitFields line15).getD i [] :=
  C1_emitted_fields stA 100 line15 90 (by decide) (Or.inl rfl) (by decide)

/-- Witness for C5_aircraft_filter: filter 999 drops record id 123 silently. -/
theorem C5_witness : ∃ o, sendTrafficData stG 100 line15 true = some o ∧
    o.sent = [] ∧ o.diag = false :=
  (((C5_aircraft_filter stG 100 line15 999 90 (by decide) (by decide)).1
    123 rfl (by decide)).1) (by decide)

/-- Witness for C7_unparseable_id: id field 12x aborts the call. -/
theorem C7_witness : sendTrafficData stG 100 lineBad true = none :=
  (C7_unparseable_id stG 100 lineBad (by decide)).1 (by decide) (by decide)

/-- Witness for C10_suppressed_record_active on a concrete record. -/
theorem C10_witness : ∃ o os, sendTrafficData stA 100 line15 false = some o ∧
    sendTrafficData stA 100 line15 true = some os ∧
    o.sent = [] ∧
    o.st.tsDiff = (100 : Rat) - 90 - (stA.bufPeriod : Rat) ∧
    o.st = os.st ∧ o.wait = os.wait ∧ o.fieldsAfter = os.fieldsAfter ∧
    o.fieldsAfter = (splitFields line15).set 14
      (ratToStr ((100 : Rat) - (stA.bufPeriod : Rat) - (stA.historic : Rat))) ∧
    os.sent = [joinFields o.fieldsAfter] :=
  C10_suppressed_record_active stA 100 line15 90 (by decide) (Or.inl rfl)
    (by decide) rfl

/-- Witness for C6_reject_iff: a 3-field record is rejected by the current
sender, a 16-field one by the legacy sender, and a 15-field record
proceeds to filtering and pacing in the legacy sender. -/
theorem C6_witness :
    sendTrafficData stA 100 shortLine true =
      some { sent := [], diag := true, ret := 0, fieldsAfter := splitFields shortLine,
             wait := 0, st := stA } ∧
    V0.sendTrafficData stV 100 line16 =
      some { sent := [], diag := true, ret := 0, wait := 0, st := stV } ∧
    V0.sendTrafficData stV 100 line15 = V0.filterAndPace stV 100 (splitFields line15) :=
  ⟨(C6_reject_iff stA stV 100 shortLine true).1 (by decide),
   (C6_reject_iff stA stV 100 line16 true).2.2.1 (by decide),
   ((C6_reject_iff stA stV 100 line15 true).2.2.2 (by decide)).1⟩

/-- Witness for C8_weather_forward on a weather line without surrounding
whitespace, in both the current and the legacy sender. -/
theorem C8_witness :
    processLine stA 5 "WX,1013".toList =
      some { traffic := [], weather := ["WX,1013".toList], wait := 0, st := stA } ∧
    V0.processLine stV 5 "WX,1013".toList = some ([], [], stV) :=
  ⟨(C8_weather_forward stA 5 "WX,1013".toList (by decide)).2.1 (by decide),
   (C8_weather_forward stA 5 "WX,1013".toList (by decide)).2.2 stV⟩

/-- Witness for C9_ownship_update on a 3-field ownship line. -/
theorem C9_witness :
    position.updateFrom p0 "XGPS,50.0,7.0".toList =
      ({ p0 with lat := some 50, lon := some 7 }, true) :=
  (C9_ownship_update p0).1 "XGPS,50.0,7.0".toList "XGPS".toList
    "50.0".toList "7.0".toList 50 7 (by decide) (by decide) (by decide)

theorem runPass_stL :
    runPass (startPass stL) [((100 : Int), line15)] =
      some ([joinFields ((splitFields line15).set 14 (ratToStr 97))], [], st1L) := by
  have hfl : pyFloat ['9', '0', '.', '0'] = some 90 := by decide
  have hget : (splitFields line15).getD 14 [] = ['9', '0', '.', '0'] := by decide
  have hcw : compWaitTS (startPass stL) 100 ((splitFields line15).getD 14 []) =
      some { out := ratToStr 97, val := 97, wait := 0,
             st := { tsDiff := 7, bufPeriod := 3, historic := 0, ac := [],
                     sendLn := true, loop := true } } := by
    rw [hget]
    unfold compWaitTS
    rw [hfl]
    norm_num [startPass, stL]
  have hsd := sendTrafficData_pass_eq (startPass stL) 100 line15 true _ (by decide)
    (Or.inl rfl) hcw
  have htag : isTrafficLine (pyStrip line15) = true := by decide
  have hpl := processLine_traffic (startPass stL) 100 line15 _ htag hsd
  rw [runPass_cons, hpl]
  simp [runPass_nil, st1L]

/-- Witness for C4_loop_seam after one concrete one-record pass. -/
theorem C4_witness :
    (startPass (loopSeam st1L)).tsDiff = 0 ∧
    (startPass (loopSeam st1L)).bufPeriod = 0 ∧
    (startPass (loopSeam st1L)).sendLn = false :=
  have h := C4_loop_seam stL st1L [((100 : Int), line15)] [] [] 100 line15
    [joinFields ((splitFields line15).set 14 (ratToStr 97))] [] rfl runPass_stL rfl
    (by intro p hp; cases hp) (by decide)
  ⟨h.1, h.2.1, h.2.2.1⟩
